import Mathlib

/-!
Shallow embedding of `divvy-data-downloader.py`: the existence prober,
catalog builder (`get_available_files`), the filter stage
(`filter_files_by_year`, `filter_files_by_quarter`) and the download
executor (`download_file` plus the download loop of `main`), together with
theorems settling the specification claims about them.

Network effects are modelled by oracle functions passed in explicitly
(`probe` for HEAD existence checks, `net` for streamed GET transfers), and
the local filesystem by a partial map from paths to byte lists.
-/

/-- One discovered remote file: the dictionary appended by
`get_available_files` (fields `filename`, `url`, `size`, `size_mb`,
`year`, `month`).  `size_mb` is kept in hundredths of a megabyte so that
Python's 2-decimal rounding is exact. -/
structure FileRecord where
  filename : String
  url : String
  size : Nat
  size_mb : Nat
  year : Nat
  month : Nat
deriving Repr, DecidableEq

/-- Python truthiness test `not x` for an argument that is either `None`
or an `int`: true exactly when the argument is `None` or the integer `0`. -/
def py_falsy : Option Int → Bool
  | none => true
  | some n => n == 0

/-- The outcome of `session.head(url, timeout=5)`: either a raised
`requests.exceptions.RequestException` (network error, timeout, DNS
failure) or a response with a status code and an optional
`Content-Length` header value. -/
inductive ProbeResponse where
  | failure : ProbeResponse
  | response (status : Nat) (contentLength : Option String) : ProbeResponse
deriving Repr, DecidableEq

/-- Python `str.isdigit` restricted to ASCII: nonempty and all digits. -/
def str_isdigit (s : String) : Bool :=
  !s.toList.isEmpty && s.toList.all Char.isDigit

/-- Decimal value of a digit string, as computed by Python `int` on a
string of digits. -/
def digitsToNat (cs : List Char) (acc : Nat) : Nat :=
  match cs with
  | [] => acc
  | c :: rest => digitsToNat rest (acc * 10 + (c.toNat - Char.toNat '0'))

/-- `size = int(content_length) if content_length.isdigit() else 0` applied
to `headers.get('Content-Length', '0')`. -/
def parseSize (contentLength : Option String) : Nat :=
  let cl := contentLength.getD "0"
  if str_isdigit cl then digitsToNat cl.toList 0 else 0

/-- Python `round(size / (1024 * 1024), 2)` as a count of hundredths of a
megabyte: round half to even on the exact rational `size * 100 / 2^20`. -/
def round2MB (size : Nat) : Nat :=
  let n := size * 100
  let d := 1024 * 1024
  let q := n / d
  let r := n % d
  if 2 * r < d then q
  else if d < 2 * r then q + 1
  else if q % 2 = 0 then q else q + 1

/-- `f"{month:02d}"`: decimal with left zero-padding to width 2. -/
def pad2 (m : Nat) : String :=
  if m < 10 then "0" ++ toString m else toString m

/-- `f"{year}{month:02d}-divvy-tripdata.zip"`. -/
def mkFilename (year month : Nat) : String :=
  toString year ++ pad2 month ++ "-divvy-tripdata.zip"

/-- Model of `urllib.parse.urljoin(base_url, filename)` for the case used
here (a plain relative filename, no query/fragment/scheme): everything in
`base` up to and including the last `/` is kept and `filename` is appended;
a base without `/` contributes nothing. -/
def urljoin (base rel : String) : String :=
  String.mk ((base.toList.reverse.dropWhile (fun c => c != '/')).reverse) ++ rel

/-- The body of the inner probing loop of `get_available_files` for a
single `(year, month)` pair: build filename and URL, issue the HEAD
request, and on a 200 response assemble the file dictionary; a raised
exception or any other status yields nothing. -/
def probe_month (probe : String → ProbeResponse) (base_url : String)
    (year month : Nat) : Option FileRecord :=
  let filename := mkFilename year month
  let url := urljoin base_url filename
  match probe url with
  | ProbeResponse.failure => none
  | ProbeResponse.response status cl =>
    if status = 200 then
      let size := parseSize cl
      some { filename := filename, url := url, size := size,
             size_mb := round2MB size, year := year, month := month }
    else none

/-- The comparison key of `discovered_files.sort(key=lambda x: (x["year"],
x["month"]))`: lexicographic order on the `(year, month)` pair. -/
def recordLE (a b : FileRecord) : Prop :=
  a.year < b.year ∨ (a.year = b.year ∧ a.month ≤ b.month)

instance : DecidableRel recordLE := fun a b =>
  show Decidable (a.year < b.year ∨ (a.year = b.year ∧ a.month ≤ b.month)) from
    inferInstance

instance : IsTotal FileRecord recordLE :=
  ⟨by intro a b; unfold recordLE; omega⟩

instance : IsTrans FileRecord recordLE :=
  ⟨by intro a b c; unfold recordLE; omega⟩

/-- `get_available_files(base_url)`: probe every pair of
`range(2013, 2025) × range(1, 13)`, collect the positive results, and sort
by `(year, month)`.  Python's `list.sort` (a stable comparison sort on the
key order) is modelled by insertion sort on the same order. -/
def get_available_files (probe : String → ProbeResponse)
    (base_url : String) : List FileRecord :=
  let discovered_files :=
    (List.range' 2013 12).flatMap fun year =>
      (List.range' 1 12).filterMap fun month =>
        probe_month probe base_url year month
  discovered_files.insertionSort recordLE

/-- `filter_files_by_year(files, year)`. -/
def filter_files_by_year (files : List FileRecord) (year : Option Int) :
    List FileRecord :=
  if py_falsy year then files
  else files.filter fun file => (file.year : Int) == year.getD 0

/-- `quarter_months[quarter]` for `quarter` in `{1, 2, 3, 4}`. -/
def quarter_months (q : Int) : List Int :=
  if q = 1 then [1, 2, 3]
  else if q = 2 then [4, 5, 6]
  else if q = 3 then [7, 8, 9]
  else [10, 11, 12]

/-- `filter_files_by_quarter(files, year, quarter)`; the `ValueError`
raised for a quarter outside `{1, 2, 3, 4}` is an `Except.error`. -/
def filter_files_by_quarter (files : List FileRecord)
    (year quarter : Option Int) : Except String (List FileRecord) :=
  if py_falsy year || py_falsy quarter then Except.ok files
  else
    let y := year.getD 0
    let q := quarter.getD 0
    if !(q == 1 || q == 2 || q == 3 || q == 4) then
      Except.error "Quarter must be 1, 2, 3, or 4"
    else
      Except.ok (files.filter fun file =>
        (file.year : Int) == y && (quarter_months q).contains (file.month : Int))

/-- The local filesystem, as a map from paths to file contents (byte
lists); `none` means no file exists at that path. -/
def FS : Type := String → Option (List Nat)

/-- The outcome of `session.get(url, stream=True)` together with
`raise_for_status()` and the chunk stream:
`netError` is an exception raised before the output file is opened
(connection error, or a non-success HTTP status raised by
`raise_for_status`, or a filesystem error from `os.makedirs`);
`ok chunks` is a transfer that delivers all its chunks;
`midStreamFail chunks` is a transfer that raises mid-stream after the given
chunks were already written. -/
inductive DownloadOutcome where
  | netError : DownloadOutcome
  | ok (chunks : List (List Nat)) : DownloadOutcome
  | midStreamFail (chunks : List (List Nat)) : DownloadOutcome
deriving Repr, DecidableEq

/-- The write loop `for chunk in response.iter_content(...): if chunk:
f.write(chunk)`: concatenate the non-empty chunks. -/
def writtenBytes (chunks : List (List Nat)) : List Nat :=
  chunks.foldl (fun acc c => if c.isEmpty then acc else acc ++ c) []

/-- `download_file(url, output_path, session)`: returns the success flag
and the filesystem after the call.  On success the file holds the
concatenated chunks; on any failure the `except` block removes whatever
file is present at `output_path` (`if os.path.exists: os.remove`) and the
function returns `False`. -/
def download_file (net : String → DownloadOutcome) (url output_path : String)
    (fs : FS) : Bool × FS :=
  match net url with
  | DownloadOutcome.netError =>
      (false, fun p => if p = output_path then none else fs p)
  | DownloadOutcome.ok chunks =>
      (true, fun p => if p = output_path then some (writtenBytes chunks) else fs p)
  | DownloadOutcome.midStreamFail _ =>
      (false, fun p => if p = output_path then none else fs p)

/-- `os.path.join(dir, name)` for the flat layout used here: insert a
separator unless `dir` already ends with one. -/
def os_path_join (dir name : String) : String :=
  if dir.toList.getLast? = some '/' then dir ++ name else dir ++ "/" ++ name

/-- The state threaded through the download loop of `main`:
`successful_downloads`, the filesystem, and the number of GET transfers
attempted (one per `download_file` call). -/
structure ExecState where
  succ : Nat
  fs : FS
  netCalls : Nat

/-- One iteration of `for file in filtered_files:` in `main`: skip (and
count as success) when a local file exists at `output_dir/filename` with
byte length equal to `file["size"]`; otherwise call `download_file` and
count it on success. -/
def download_step (net : String → DownloadOutcome) (output_dir : String)
    (st : ExecState) (file : FileRecord) : ExecState :=
  let output_path := os_path_join output_dir file.filename
  let already :=
    match st.fs output_path with
    | some contents => decide (contents.length = file.size)
    | none => false
  if already then
    { st with succ := st.succ + 1 }
  else
    let res := download_file net file.url output_path st.fs
    { succ := if res.1 then st.succ + 1 else st.succ,
      fs := res.2, netCalls := st.netCalls + 1 }

/-- The whole download loop of `main`, starting from zero counters. -/
def download_loop (net : String → DownloadOutcome) (output_dir : String)
    (files : List FileRecord) (fs : FS) : ExecState :=
  files.foldl (download_step net output_dir) { succ := 0, fs := fs, netCalls := 0 }

-- Sample data shared by several witnesses and counterexamples.

/-- A sample record for the pair (2020, 1). -/
def sampleRec : FileRecord :=
  { filename := "202001-divvy-tripdata.zip", url := "202001-divvy-tripdata.zip",
    size := 3, size_mb := 0, year := 2020, month := 1 }

/-- A sample record for the pair (2019, 5). -/
def sampleRec2019 : FileRecord :=
  { filename := "201905-divvy-tripdata.zip", url := "201905-divvy-tripdata.zip",
    size := 7, size_mb := 0, year := 2019, month := 5 }

/-- A fixture prober that reports exactly one existing file,
`202103-divvy-tripdata.zip`, with a declared size of 7 bytes. -/
def sampleProbe : String → ProbeResponse := fun u =>
  if u = "202103-divvy-tripdata.zip" then ProbeResponse.response 200 (some "7")
  else ProbeResponse.failure

/-- The record discovered by `sampleProbe` for the pair (2021, 3). -/
def sampleRec2021 : FileRecord :=
  { filename := "202103-divvy-tripdata.zip", url := "202103-divvy-tripdata.zip",
    size := 7, size_mb := 0, year := 2021, month := 3 }

deriving instance DecidableEq for Except

/-- A fixture filesystem holding one fully downloaded file for
`sampleRec` under the default output directory. -/
def sampleFS : FS := fun p =>
  if p = "data/202001-divvy-tripdata.zip" then some [10, 20, 30] else none

/-- A fixture transfer oracle on which every GET fails with a network
error. -/
def sampleNet : String → DownloadOutcome := fun _ => DownloadOutcome.netError

-- Helper lemmas shared by several claims.

/-- Evaluating the sample catalog. -/
theorem sample_catalog_eq : get_available_files sampleProbe "" = [sampleRec2021] := by
  decide

/-- `py_falsy (some n)` is `false` exactly for nonzero `n`. -/
theorem py_falsy_some {n : Int} (hn : n ≠ 0) : py_falsy (some n) = false := by
  simp [py_falsy, hn]

/-- With a truthy year, `filter_files_by_year` is the evident list filter. -/
theorem filter_files_by_year_some {files : List FileRecord} {y : Int} (hy : y ≠ 0) :
    filter_files_by_year files (some y) =
      files.filter fun file => decide ((file.year : Int) = y) := by
  unfold filter_files_by_year
  rw [py_falsy_some hy]
  simp only [Bool.false_eq_true, if_false, Option.getD_some]
  refine List.filter_congr fun x _ => ?_
  rw [Bool.eq_iff_iff]
  simp

/-- With truthy year and a quarter in `{1, 2, 3, 4}`,
`filter_files_by_quarter` is the evident list filter, with the quarter's
month group characterised arithmetically. -/
theorem filter_files_by_quarter_some {files : List FileRecord} {y q : Int}
    (hy : y ≠ 0) (hq : q = 1 ∨ q = 2 ∨ q = 3 ∨ q = 4) :
    filter_files_by_quarter files (some y) (some q) =
      Except.ok (files.filter fun file =>
        decide ((file.year : Int) = y ∧
          3 * (q - 1) < (file.month : Int) ∧ (file.month : Int) ≤ 3 * q)) := by
  have hq0 : q ≠ 0 := by omega
  unfold filter_files_by_quarter
  rw [py_falsy_some hy, py_falsy_some hq0]
  simp only [Bool.or_self, Bool.false_eq_true, if_false, Option.getD_some]
  have hguard : (q == 1 || q == 2 || q == 3 || q == 4) = true := by
    rcases hq with h | h | h | h <;> simp [h]
  rw [hguard]
  simp only [Bool.not_true, Bool.false_eq_true, if_false, Except.ok.injEq]
  refine List.filter_congr fun x _ => ?_
  rw [Bool.eq_iff_iff]
  simp only [Bool.and_eq_true, beq_iff_eq, List.contains, List.elem_eq_mem,
    decide_eq_true_eq]
  rcases hq with h | h | h | h <;> subst h <;> simp [quarter_months] <;> omega

/-- With truthy year and truthy quarter outside `{1, 2, 3, 4}`,
`filter_files_by_quarter` raises the `ValueError`. -/
theorem filter_files_by_quarter_invalid {files : List FileRecord} {y q : Int}
    (hy : y ≠ 0) (hq0 : q ≠ 0) (hq : ¬(q = 1 ∨ q = 2 ∨ q = 3 ∨ q = 4)) :
    filter_files_by_quarter files (some y) (some q) =
      Except.error "Quarter must be 1, 2, 3, or 4" := by
  unfold filter_files_by_quarter
  rw [py_falsy_some hy, py_falsy_some hq0]
  simp only [Bool.or_self, Bool.false_eq_true, if_false, Option.getD_some]
  have hguard : (q == 1 || q == 2 || q == 3 || q == 4) = false := by
    simp only [Bool.or_eq_false_iff, beq_eq_false_iff_ne, ne_eq]
    omega
  rw [hguard]
  rfl

/-- If either argument of `filter_files_by_quarter` is `None`, the input
list is returned unchanged. -/
theorem filter_files_by_quarter_none (l : List FileRecord) (oy oq : Option Int) :
    filter_files_by_quarter l none oq = Except.ok l ∧
    filter_files_by_quarter l oy none = Except.ok l := by
  constructor <;> unfold filter_files_by_quarter <;> simp [py_falsy]

/-- C5 counterexample: with the supplied year `0`, `filter_files_by_year`
returns a catalog containing a record whose year is `2020`, not the
(empty) subset of records with year `0` that the claim demands. -/
theorem filter_year_claim_cex :
    ¬ (filter_files_by_year [sampleRec] (some 0) =
        [sampleRec].filter fun file => decide ((file.year : Int) = 0)) := by
  decide

/-- C5 (amended: the supplied year must additionally be nonzero, since the
code tests Python truthiness): `filter_files_by_year` with a nonzero
supplied year keeps exactly the records of that year, in order, and with
the year absent returns the catalog unchanged. -/
theorem filter_year_exact (files : List FileRecord) (y : Int) (hy : y ≠ 0) :
    filter_files_by_year files (some y) =
      (files.filter fun file => decide ((file.year : Int) = y)) ∧
    filter_files_by_year files none = files :=
  ⟨filter_files_by_year_some hy, rfl⟩

/-- Witness for `filter_year_exact` at a concrete catalog and year. -/
theorem filter_year_exact_witness :
    filter_files_by_year [sampleRec, sampleRec2019] (some 2020) =
      ([sampleRec, sampleRec2019].filter fun file =>
        decide ((file.year : Int) = 2020)) ∧
    filter_files_by_year [sampleRec, sampleRec2019] none =
      [sampleRec, sampleRec2019] :=
  filter_year_exact [sampleRec, sampleRec2019] 2020 (by decide)

/-- C3 counterexample: with the supplied year `0` and quarter `2`,
`filter_files_by_quarter` returns the catalog unchanged (a record with
year `2020`, month `1`), not the records with year `0` and month in
`{4, 5, 6}` that the claim demands. -/
theorem filter_quarter_claim_cex :
    ¬ (filter_files_by_quarter [sampleRec] (some 0) (some 2) =
        Except.ok ([sampleRec].filter fun file =>
          decide ((file.year : Int) = 0 ∧
            3 * (2 - 1) < (file.month : Int) ∧ (file.month : Int) ≤ 3 * 2))) := by
  decide

/-- C3 (amended: the supplied year must additionally be nonzero, since the
code tests Python truthiness): for a nonzero year and a quarter in
`{1, 2, 3, 4}`, `filter_files_by_quarter` keeps exactly the records whose
year matches and whose month lies in the quarter's fixed 3-month group
(months `3(q-1)+1` through `3q`), preserving relative order. -/
theorem filter_quarter_exact (files : List FileRecord) (y q : Int)
    (hy : y ≠ 0) (hq : q = 1 ∨ q = 2 ∨ q = 3 ∨ q = 4) :
    filter_files_by_quarter files (some y) (some q) =
      Except.ok (files.filter fun file =>
        decide ((file.year : Int) = y ∧
          3 * (q - 1) < (file.month : Int) ∧ (file.month : Int) ≤ 3 * q)) :=
  filter_files_by_quarter_some hy hq

/-- Witness for `filter_quarter_exact` at a concrete catalog, year and
quarter. -/
theorem filter_quarter_exact_witness :
    filter_files_by_quarter [sampleRec2019, sampleRec] (some 2019) (some 2) =
      Except.ok ([sampleRec2019, sampleRec].filter fun file =>
        decide ((file.year : Int) = 2019 ∧
          3 * (2 - 1) < (file.month : Int) ∧ (file.month : Int) ≤ 3 * 2)) :=
  filter_quarter_exact [sampleRec2019, sampleRec] 2019 2 (by decide) (by decide)

/-- C4 counterexample: quarter `0` is supplied and lies outside
`{1, 2, 3, 4}`, yet `filter_files_by_quarter` returns the catalog
unchanged instead of failing, because `0` is falsy in Python. -/
theorem filter_quarter_invalid_cex :
    filter_files_by_quarter [sampleRec] (some 2021) (some 0) =
      Except.ok [sampleRec] ∧
    ¬ ((0 : Int) = 1 ∨ (0 : Int) = 2 ∨ (0 : Int) = 3 ∨ (0 : Int) = 4) :=
  ⟨rfl, by decide⟩

/-- C4 (amended: both arguments must additionally be nonzero, since the
code tests Python truthiness before validating): for nonzero supplied year
and nonzero supplied quarter outside `{1, 2, 3, 4}`,
`filter_files_by_quarter` fails with the `ValueError`. -/
theorem filter_quarter_invalid_error (files : List FileRecord) (y q : Int)
    (hy : y ≠ 0) (hq0 : q ≠ 0) (hq : ¬(q = 1 ∨ q = 2 ∨ q = 3 ∨ q = 4)) :
    filter_files_by_quarter files (some y) (some q) =
      Except.error "Quarter must be 1, 2, 3, or 4" :=
  filter_files_by_quarter_invalid hy hq0 hq

/-- Witness for `filter_quarter_invalid_error` at quarter `5`. -/
theorem filter_quarter_invalid_error_witness :
    filter_files_by_quarter [sampleRec] (some 2021) (some 5) =
      Except.error "Quarter must be 1, 2, 3, or 4" :=
  filter_quarter_invalid_error [sampleRec] 2021 5 (by decide) (by decide) (by decide)

/-- C9 counterexample: with year `2020` and the supplied quarter `0`,
quarter filtering after year filtering yields the year-filtered (empty)
list, while quarter filtering alone returns the original catalog
unchanged — the two disagree. -/
theorem filter_layering_cex :
    ¬ (filter_files_by_quarter
        (filter_files_by_year [sampleRec2019] (some 2020)) (some 2020) (some 0) =
       filter_files_by_quarter [sampleRec2019] (some 2020) (some 0)) := by
  decide

/-- C9 (amended: the supplied quarter must additionally be nonzero, since
the code tests Python truthiness): for every supplied year and every
nonzero supplied quarter, filtering by year and then by quarter equals
filtering by quarter alone — in particular also for the supplied year `0`,
where both filters are no-ops; and `filter_files_by_quarter` with either
argument absent returns its input unchanged. -/
theorem filter_layering (files : List FileRecord) (y q : Int) (hq : q ≠ 0) :
    filter_files_by_quarter (filter_files_by_year files (some y))
        (some y) (some q) =
      filter_files_by_quarter files (some y) (some q) ∧
    (∀ (l : List FileRecord) (oq : Option Int),
      filter_files_by_quarter l none oq = Except.ok l) ∧
    (∀ (l : List FileRecord) (oy : Option Int),
      filter_files_by_quarter l oy none = Except.ok l) := by
  refine ⟨?_, fun l oq => (filter_files_by_quarter_none l none oq).1,
    fun l oy => (filter_files_by_quarter_none l oy none).2⟩
  by_cases hy : y = 0
  · subst hy
    have hnoop : filter_files_by_year files (some 0) = files := rfl
    rw [hnoop]
  · by_cases hvalid : q = 1 ∨ q = 2 ∨ q = 3 ∨ q = 4
    · rw [filter_files_by_quarter_some hy hvalid,
        filter_files_by_quarter_some hy hvalid, filter_files_by_year_some hy,
        List.filter_filter]
      refine congrArg Except.ok (List.filter_congr fun x _ => ?_)
      rw [Bool.eq_iff_iff]
      simp only [Bool.and_eq_true, decide_eq_true_eq]
      tauto
    · rw [filter_files_by_quarter_invalid hy hq hvalid,
        filter_files_by_quarter_invalid hy hq hvalid]

/-- Witness for `filter_layering` at a concrete catalog, year and
quarter. -/
theorem filter_layering_witness :
    filter_files_by_quarter
        (filter_files_by_year [sampleRec2019, sampleRec] (some 2019))
        (some 2019) (some 2) =
      filter_files_by_quarter [sampleRec2019, sampleRec] (some 2019) (some 2) :=
  (filter_layering [sampleRec2019, sampleRec] 2019 2 (by decide)).1

/-- C10: the filters test Python truthiness, so the integer `0` acts as an
absent argument — `filter_files_by_year` with year `0` returns the catalog
unchanged, and `filter_files_by_quarter` with a truthy year and quarter
`0` returns the catalog unchanged without raising, even though `0` lies
outside `{1, 2, 3, 4}`. -/
theorem zero_arg_no_filter (files : List FileRecord) (n : Int) (hn : n ≠ 0) :
    filter_files_by_year files (some 0) = files ∧
    filter_files_by_quarter files (some n) (some 0) = Except.ok files ∧
    ¬ ((0 : Int) = 1 ∨ (0 : Int) = 2 ∨ (0 : Int) = 3 ∨ (0 : Int) = 4) := by
  refine ⟨rfl, ?_, by decide⟩
  unfold filter_files_by_quarter
  simp [py_falsy]

/-- Witness for `zero_arg_no_filter` at a concrete catalog and year. -/
theorem zero_arg_no_filter_witness :
    filter_files_by_year [sampleRec] (some 0) = [sampleRec] ∧
    filter_files_by_quarter [sampleRec] (some 2021) (some 0) =
      Except.ok [sampleRec] ∧
    ¬ ((0 : Int) = 1 ∨ (0 : Int) = 2 ∨ (0 : Int) = 3 ∨ (0 : Int) = 4) :=
  zero_arg_no_filter [sampleRec] 2021 (by decide)

/-- C1: the skip rule — when a local file already exists at the computed
path with byte length exactly equal to the record's size, the download
step performs no network call, leaves the filesystem unchanged at every
path, and counts the record as a success. -/
theorem download_skip_rule (net : String → DownloadOutcome) (dir : String)
    (st : ExecState) (file : FileRecord) (contents : List Nat)
    (hex : st.fs (os_path_join dir file.filename) = some contents)
    (hsize : contents.length = file.size) :
    (download_step net dir st file).succ = st.succ + 1 ∧
    (download_step net dir st file).netCalls = st.netCalls ∧
    ∀ p, (download_step net dir st file).fs p = st.fs p := by
  have h : download_step net dir st file = { st with succ := st.succ + 1 } := by
    unfold download_step
    simp [hex, hsize]
  rw [h]
  exact ⟨rfl, rfl, fun p => rfl⟩

/-- Witness for `download_skip_rule`: a pre-downloaded 3-byte file for
`sampleRec` is skipped, counted, and left in place. -/
theorem download_skip_rule_witness :
    (download_step sampleNet "data" ⟨0, sampleFS, 0⟩ sampleRec).succ = 1 ∧
    (download_step sampleNet "data" ⟨0, sampleFS, 0⟩ sampleRec).netCalls = 0 ∧
    (download_step sampleNet "data" ⟨0, sampleFS, 0⟩ sampleRec).fs
        "data/202001-divvy-tripdata.zip" = some [10, 20, 30] := by
  have h := download_skip_rule sampleNet "data" ⟨0, sampleFS, 0⟩ sampleRec
    [10, 20, 30] rfl rfl
  exact ⟨h.1, h.2.1, (h.2.2 "data/202001-divvy-tripdata.zip").trans rfl⟩

/-- C2: download failure cleanup and containment — when the transfer for a
URL fails (network error, non-success status, or a mid-stream failure),
`download_file` returns `False`, no file exists at the output path
afterwards, every other path is untouched; a failing file contributes no
success and exactly one transfer attempt to the loop state; and the loop
on `file :: rest` always continues with `rest` whatever happened to
`file`. -/
theorem download_failure_cleanup (net : String → DownloadOutcome)
    (url path : String) (fs : FS)
    (hfail : ∀ chunks, net url ≠ DownloadOutcome.ok chunks) :
    ((download_file net url path fs).1 = false ∧
     (download_file net url path fs).2 path = none ∧
     ∀ p, p ≠ path → (download_file net url path fs).2 p = fs p) ∧
    (∀ (dir : String) (st : ExecState) (file : FileRecord),
      file.url = url →
      st.fs (os_path_join dir file.filename) = none →
      (download_step net dir st file).succ = st.succ ∧
      (download_step net dir st file).fs (os_path_join dir file.filename) = none ∧
      (download_step net dir st file).netCalls = st.netCalls + 1) ∧
    (∀ (dir : String) (fs₀ : FS) (file : FileRecord) (rest : List FileRecord),
      download_loop net dir (file :: rest) fs₀ =
        rest.foldl (download_step net dir)
          (download_step net dir { succ := 0, fs := fs₀, netCalls := 0 } file)) := by
  have hcase : ∀ (path' : String) (fs' : FS),
      (download_file net url path' fs').1 = false ∧
      (download_file net url path' fs').2 path' = none ∧
      ∀ p, p ≠ path' → (download_file net url path' fs').2 p = fs' p := by
    intro path' fs'
    unfold download_file
    cases h : net url with
    | netError => exact ⟨rfl, by simp, fun p hp => by simp [hp]⟩
    | ok chunks => exact absurd h (hfail chunks)
    | midStreamFail chunks => exact ⟨rfl, by simp, fun p hp => by simp [hp]⟩
  refine ⟨hcase path fs, ?_, fun dir fs₀ file rest => rfl⟩
  intro dir st file hurl hnone
  have hstep : download_step net dir st file =
      { succ := if (download_file net file.url (os_path_join dir file.filename) st.fs).1
                then st.succ + 1 else st.succ,
        fs := (download_file net file.url (os_path_join dir file.filename) st.fs).2,
        netCalls := st.netCalls + 1 } := by
    unfold download_step
    simp only [hnone, Bool.false_eq_true, if_false]
  obtain ⟨hflag, hpath, _⟩ := hcase (os_path_join dir file.filename) st.fs
  rw [hstep, hurl]
  exact ⟨by simp [hflag], hpath, rfl⟩

/-- Witness for `download_failure_cleanup`: a failing transfer on a
filesystem that already holds an unrelated file reports failure, leaves
nothing at the target path, and keeps the unrelated file. -/
theorem download_failure_cleanup_witness :
    (download_file sampleNet "u" "p" sampleFS).1 = false ∧
    (download_file sampleNet "u" "p" sampleFS).2 "p" = none ∧
    (download_file sampleNet "u" "p" sampleFS).2
        "data/202001-divvy-tripdata.zip" = some [10, 20, 30] := by
  have h := download_failure_cleanup sampleNet "u" "p" sampleFS
    (fun chunks hc => by simp [sampleNet] at hc)
  exact ⟨h.1.1, h.1.2.1,
    (h.1.2.2 "data/202001-divvy-tripdata.zip" (by decide)).trans rfl⟩

/-- Unfolding of a positive `probe_month` result: the pair yields a record
exactly when the HEAD probe of its URL answers status 200, and the record
is then built from the pair and the declared `Content-Length`. -/
theorem probe_month_eq_some {probe : String → ProbeResponse} {base : String}
    {y m : Nat} {r : FileRecord} :
    probe_month probe base y m = some r ↔
      ∃ cl, probe (urljoin base (mkFilename y m)) = ProbeResponse.response 200 cl ∧
        r = { filename := mkFilename y m, url := urljoin base (mkFilename y m),
              size := parseSize cl, size_mb := round2MB (parseSize cl),
              year := y, month := m } := by
  unfold probe_month
  cases hp : probe (urljoin base (mkFilename y m)) with
  | failure => simp [hp]
  | response status cl =>
    by_cases hs : status = 200
    · subst hs
      simp [hp, eq_comm]
    · simp [hp, hs]

/-- Membership in the built catalog comes from a positive probe of a grid
pair. -/
theorem mem_get_available_files {probe : String → ProbeResponse}
    {base : String} {r : FileRecord} :
    r ∈ get_available_files probe base ↔
      ∃ y, y ∈ List.range' 2013 12 ∧ ∃ m, m ∈ List.range' 1 12 ∧
        probe_month probe base y m = some r := by
  unfold get_available_files
  rw [List.mem_insertionSort]
  simp [List.mem_flatMap, List.mem_filterMap]

/-- The fields of a record produced by a positive probe are determined by
the probed pair. -/
theorem probe_month_fields {probe : String → ProbeResponse} {base : String}
    {y m : Nat} {r : FileRecord} (h : probe_month probe base y m = some r) :
    r.year = y ∧ r.month = m ∧ r.filename = mkFilename y m ∧
    r.url = urljoin base (mkFilename y m) := by
  obtain ⟨cl, _, hr⟩ := probe_month_eq_some.mp h
  subst hr
  exact ⟨rfl, rfl, rfl, rfl⟩

/-- C6: catalog invariant — a record is in the built catalog iff the HEAD
probe of the URL constructed for some grid pair answered status 200 (the
record then being built from that pair and the declared size), and the
catalog is sorted ascending by `(year, month)` for every prober. -/
theorem catalog_invariant (probe : String → ProbeResponse) (base : String) :
    List.Pairwise recordLE (get_available_files probe base) ∧
    ∀ r, r ∈ get_available_files probe base ↔
      ∃ y, y ∈ List.range' 2013 12 ∧ ∃ m, m ∈ List.range' 1 12 ∧ ∃ cl,
        probe (urljoin base (mkFilename y m)) = ProbeResponse.response 200 cl ∧
        r = { filename := mkFilename y m, url := urljoin base (mkFilename y m),
              size := parseSize cl, size_mb := round2MB (parseSize cl),
              year := y, month := m } := by
  constructor
  · exact List.sorted_insertionSort recordLE _
  · intro r
    rw [mem_get_available_files]
    constructor
    · rintro ⟨y, hy, m, hm, h⟩
      exact ⟨y, hy, m, hm, probe_month_eq_some.mp h⟩
    · rintro ⟨y, hy, m, hm, hcl⟩
      exact ⟨y, hy, m, hm, probe_month_eq_some.mpr hcl⟩

/-- Witness for `catalog_invariant`: the fixture catalog is sorted and its
single record corresponds to the one positive probe. -/
theorem catalog_invariant_witness :
    List.Pairwise recordLE (get_available_files sampleProbe "") ∧
    (sampleRec2021 ∈ get_available_files sampleProbe "" ↔
      ∃ y, y ∈ List.range' 2013 12 ∧ ∃ m, m ∈ List.range' 1 12 ∧ ∃ cl,
        sampleProbe (urljoin "" (mkFilename y m)) = ProbeResponse.response 200 cl ∧
        sampleRec2021 = { filename := mkFilename y m,
                          url := urljoin "" (mkFilename y m),
                          size := parseSize cl,
                          size_mb := round2MB (parseSize cl),
                          year := y, month := m }) :=
  ⟨(catalog_invariant sampleProbe "").1,
   (catalog_invariant sampleProbe "").2 sampleRec2021⟩

/-- C7: for every record the catalog can contain, the filename is exactly
the fixed pattern for its `(year, month)` pair and the URL is the filename
resolved against the base URL; on the probed grid the pattern is the
6-digit decimal of `year * 100 + month` followed by the fixed suffix, and
in particular `(2021, 3)` yields `"202103-divvy-tripdata.zip"`. -/
theorem filename_pattern :
    (∀ (probe : String → ProbeResponse) (base : String) (r : FileRecord),
      r ∈ get_available_files probe base →
        r.filename = mkFilename r.year r.month ∧
        r.url = urljoin base r.filename ∧
        2013 ≤ r.year ∧ r.year ≤ 2024 ∧ 1 ≤ r.month ∧ r.month ≤ 12) ∧
    (∀ y, y ∈ List.range' 2013 12 → ∀ m, m ∈ List.range' 1 12 →
      mkFilename y m = Nat.repr (y * 100 + m) ++ "-divvy-tripdata.zip") ∧
    mkFilename 2021 3 = "202103-divvy-tripdata.zip" ∧
    urljoin "https://divvy-tripdata.s3.amazonaws.com/" (mkFilename 2021 3) =
      "https://divvy-tripdata.s3.amazonaws.com/202103-divvy-tripdata.zip" := by
  refine ⟨?_, by decide, by decide, by decide⟩
  intro probe base r hr
  obtain ⟨y, hy, m, hm, h⟩ := mem_get_available_files.mp hr
  obtain ⟨hyr, hmr, hfn, hurl⟩ := probe_month_fields h
  subst hyr
  subst hmr
  have hurl' : r.url = urljoin base r.filename := by rw [hfn]; exact hurl
  obtain ⟨i, hi, hyi⟩ := List.mem_range'.mp hy
  obtain ⟨j, hj, hmj⟩ := List.mem_range'.mp hm
  exact ⟨hfn, hurl', by omega, by omega, by omega, by omega⟩

/-- Witness for `filename_pattern`: the record discovered by the fixture
prober follows the pattern. -/
theorem filename_pattern_witness :
    sampleRec2021.filename = mkFilename sampleRec2021.year sampleRec2021.month ∧
    sampleRec2021.url = urljoin "" sampleRec2021.filename ∧
    2013 ≤ sampleRec2021.year ∧ sampleRec2021.year ≤ 2024 ∧
    1 ≤ sampleRec2021.month ∧ sampleRec2021.month ≤ 12 :=
  filename_pattern.1 sampleProbe "" sampleRec2021 (by
    rw [sample_catalog_eq]
    exact List.mem_singleton.mpr rfl)

/-- C8: probe-failure semantics — a candidate pair whose HEAD probe raises
or answers any status other than 200 contributes nothing: its probe step
yields no record and no record with that `(year, month)` reaches the
catalog.  The catalog builder itself is a total function, so no error
propagates out of it. -/
theorem probe_failure_excluded (probe : String → ProbeResponse) (base : String)
    (y m : Nat) (hy : y ∈ List.range' 2013 12) (hm : m ∈ List.range' 1 12)
    (hfail : ∀ cl,
      probe (urljoin base (mkFilename y m)) ≠ ProbeResponse.response 200 cl) :
    probe_month probe base y m = none ∧
    ∀ r ∈ get_available_files probe base, ¬(r.year = y ∧ r.month = m) := by
  have hnone : probe_month probe base y m = none := by
    cases hpm : probe_month probe base y m with
    | none => rfl
    | some r =>
      obtain ⟨cl, hcl, _⟩ := probe_month_eq_some.mp hpm
      exact absurd hcl (hfail cl)
  refine ⟨hnone, ?_⟩
  rintro r hr ⟨hry, hrm⟩
  obtain ⟨y', hy', m', hm', hpm⟩ := mem_get_available_files.mp hr
  obtain ⟨h1, h2, _, _⟩ := probe_month_fields hpm
  have hyy : y' = y := h1.symm.trans hry
  have hmm : m' = m := h2.symm.trans hrm
  rw [hyy, hmm, hnone] at hpm
  cases hpm

/-- Witness for `probe_failure_excluded`: the fixture prober fails at the
pair (2013, 1), so that pair yields nothing and the discovered record is
not for it. -/
theorem probe_failure_excluded_witness :
    probe_month sampleProbe "" 2013 1 = none ∧
    ¬(sampleRec2021.year = 2013 ∧ sampleRec2021.month = 1) := by
  have hval : sampleProbe (urljoin "" (mkFilename 2013 1)) =
      ProbeResponse.failure := by decide
  have h := probe_failure_excluded sampleProbe "" 2013 1 (by decide) (by decide)
    (fun cl hc => by rw [hval] at hc; cases hc)
  exact ⟨h.1, h.2 sampleRec2021 (by
    rw [sample_catalog_eq]
    exact List.mem_singleton.mpr rfl)⟩
